import Mathlib

/-!
Shallow embedding of the ImaraFund intelligent matching engine
(`src/app/services/intelligent_matcher.py` and the `/match/{company_id}`
endpoint of `src/app/api/endpoints.py`).

Numeric fields (`funding_need_usd`, `estimated_value_amount`) and scores are
modelled as exact rationals (ℚ).  Python strings are modelled as `String`
at the record level and as `List Char` once normalised; the Python string
operations (`.lower()`, `.strip()`, `x in y`, `str.split()`, truthiness of
`x or d`) are embedded as structurally recursive functions below.
-/

namespace Imara

/-- Python's `str.lower()` on a character list (per-character lowering,
as CPython does for ASCII data). -/
def pyLower (s : List Char) : List Char := s.map Char.toLower

/-- Python's `str.strip()` on a character list: drop leading and trailing
whitespace. -/
def pyStrip (s : List Char) : List Char :=
  ((s.dropWhile Char.isWhitespace).reverse.dropWhile Char.isWhitespace).reverse

/-- Python's `needle in hay`: `needle` occurs as a contiguous sublist of
`hay` (the empty needle always occurs). -/
def subList (needle : List Char) : List Char → Bool
  | [] => needle.isEmpty
  | a :: t => needle.isPrefixOf (a :: t) || subList needle t

/-- Python's `needle in hay`, named after the source's idiom. -/
def pyIn (needle hay : List Char) : Bool := subList needle hay

/-- Python's `str(x or '').lower().strip()` applied to a nullable string
field: `None` and `''` both become `''`, then lowercase, then strip. -/
def pyNorm (o : Option String) : List Char := pyStrip (pyLower (o.getD "").toList)

/-- Python's `x or d` on a nullable string with a non-empty default:
`None` and the empty string are falsy. -/
def pyOrStr (o : Option String) (d : String) : String :=
  match o with
  | none => d
  | some s => if s = "" then d else s

/-- Helper for `pySplit`: `cur` is the reversed word being accumulated. -/
def pySplitAux (cur : List Char) : List Char → List (List Char)
  | [] => if cur.isEmpty then [] else [cur.reverse]
  | c :: t =>
    if c.isWhitespace then
      if cur.isEmpty then pySplitAux [] t
      else cur.reverse :: pySplitAux [] t
    else pySplitAux (c :: cur) t

/-- Python's `str.split()` (no separator): split on whitespace runs,
discarding empty pieces. -/
def pySplit (s : List Char) : List (List Char) := pySplitAux [] s

/-- Python's banker's rounding (`round`) of a rational to an integer:
round half to even. -/
def roundHalfToEven (x : ℚ) : ℤ :=
  let f := ⌊x⌋
  let r := x - (f : ℚ)
  if r < 1/2 then f
  else if 1/2 < r then f + 1
  else if f % 2 = 0 then f else f + 1

/-- Python's `round(x, 1)`. -/
def pyRound1 (x : ℚ) : ℚ := ((roundHalfToEven (10 * x) : ℤ) : ℚ) / 10

/-- `Company` record (`app/models.py`): the fields read by the matcher.
All text fields are nullable free text; the funding need is a nullable
number. -/
structure Company where
  id : Nat
  company_name : Option String
  sector : Option String
  nationality : Option String
  business_stage : Option String
  funding_need_usd : Option ℚ
  deriving Repr, DecidableEq

/-- `Grant` record (`app/models.py`): the fields read by the matcher. -/
structure Grant where
  id : Nat
  program_name : Option String
  institution_name : Option String
  country : Option String
  geographic_scope : Option String
  target_sectors : Option String
  estimated_value_amount : Option ℚ
  website_url : Option String
  data_source_url : Option String
  repayment_required : Option Bool
  deriving Repr, DecidableEq

/-- The four-part score breakdown dict built by `_calculate_match_score`. -/
structure Breakdown where
  geographic : ℚ
  sector : ℚ
  amount_fit : ℚ
  stage : ℚ
  deriving Repr, DecidableEq

/-- `IntelligentMatcher._score_geography`: 0–40 points. -/
def scoreGeography (company : Company) (grant : Grant) : ℚ :=
  let company_country := pyNorm company.nationality
  let grant_scope := pyNorm grant.geographic_scope
  let grant_country := pyNorm grant.country
  if pyIn "global".toList grant_scope then 40
  else if pyIn company_country grant_country || pyIn company_country grant_scope then 40
  else if africa_countries.contains company_country &&
      (pyIn "africa".toList grant_scope || pyIn "african".toList grant_scope) then 35
  else 0
where
  /-- The hardcoded `africa_countries` list of `_score_geography`. -/
  africa_countries : List (List Char) :=
    ["nigeria", "kenya", "south africa", "ghana", "uganda", "egypt",
     "tanzania", "rwanda", "ethiopia", "senegal", "botswana", "zambia",
     "zimbabwe", "morocco", "tunisia", "algeria", "libya", "cameroon",
     "ivory coast", "mali", "burkina faso", "niger", "madagascar"].map String.toList

/-- `IntelligentMatcher._score_sector`: 10–30 points. -/
def scoreSector (company : Company) (grant : Grant) : ℚ :=
  let company_sector := pyNorm company.sector
  let target_sectors := pyNorm grant.target_sectors
  if (["all", "general", "any"].map String.toList).any
      (fun keyword => pyIn keyword target_sectors) then 25
  else if pyIn company_sector target_sectors then 30
  else if ((pySplit company_sector).any fun word =>
      decide (word.length > 3) && pyIn word target_sectors) then 20
  else 10

/-- `IntelligentMatcher._score_funding_amount`: 8–20 points. -/
def scoreFundingAmount (company : Company) (grant : Grant) : ℚ :=
  let need := company.funding_need_usd.getD 0
  let available := grant.estimated_value_amount.getD 0
  if available = 0 ∨ need = 0 then 15
  else
    let ratio := need / available
    if 0.1 ≤ ratio ∧ ratio ≤ 2.0 then 20
    else if 0.05 ≤ ratio ∧ ratio ≤ 5.0 then 15
    else 8

/-- `IntelligentMatcher._score_business_stage`: 7–10 points. -/
def scoreBusinessStage (company : Company) (_grant : Grant) : ℚ :=
  let stage := pyNorm company.business_stage
  if stage ∈ ["startup", "early growth"].map String.toList then 10
  else if stage = "idea".toList then 8
  else if stage ∈ ["growth", "scale-up", "expansion"].map String.toList then 9
  else 7

/-- `IntelligentMatcher._calculate_match_score`: the four sub-scores are
added in order, the total is clamped to 100, and the breakdown dict is
returned alongside. -/
def calculateMatchScore (company : Company) (grant : Grant) : ℚ × Breakdown :=
  let geo_score := scoreGeography company grant
  let sector_score := scoreSector company grant
  let amount_score := scoreFundingAmount company grant
  let stage_score := scoreBusinessStage company grant
  let score := geo_score + sector_score + amount_score + stage_score
  (min 100 score,
   { geographic := geo_score, sector := sector_score,
     amount_fit := amount_score, stage := stage_score })

/-- One entry of the match list built inside `find_matches`. -/
structure MatchEntry where
  grant : Grant
  program_name : String
  institution : String
  country : String
  funding_amount : ℚ
  match_score : ℚ
  score_breakdown : Breakdown
  target_sectors : String
  website : String
  data_source_url : String
  repayment_required : String
  deriving Repr, DecidableEq

/-- The dict appended for a grant passing the threshold
(`find_matches`, body of the loop). -/
def buildEntry (grant : Grant) (score : ℚ) (breakdown : Breakdown) : MatchEntry :=
  { grant := grant
    program_name := pyOrStr grant.program_name "Unknown Program"
    institution := pyOrStr grant.institution_name "Unknown Institution"
    country := pyOrStr grant.country "Unknown"
    funding_amount := grant.estimated_value_amount.getD 0
    match_score := pyRound1 score
    score_breakdown := breakdown
    target_sectors := pyOrStr grant.target_sectors "General"
    website := pyOrStr grant.website_url "Not available"
    data_source_url := pyOrStr grant.data_source_url "Not available"
    repayment_required :=
      match grant.repayment_required with
      | some true => "True"
      | some false => "False"
      | none => "Unknown" }

/-- The `matches` list accumulated by the loop of `find_matches`: one entry
per grant with score strictly above 30, in grant-collection order. -/
def matchCandidates (company : Company) (grants : List Grant) : List MatchEntry :=
  grants.filterMap fun grant =>
    let sb := calculateMatchScore company grant
    if sb.1 > 30 then some (buildEntry grant sb.1 sb.2) else none

/-- The comparison used by `sorted(..., key=lambda x: x['match_score'],
reverse=True)`: a stable descending sort places `a` before `b`
exactly when `b`'s key ≤ `a`'s key. -/
def matchLE (a b : MatchEntry) : Bool := b.match_score ≤ a.match_score

/-- The error raised by `find_matches` for an unknown company id
(a `ValueError` in the source). -/
inductive MatchError where
  | notFound (companyId : Nat)
  deriving Repr, DecidableEq

/-- The data the SQLAlchemy session can serve: the company table and the
grant table (`db.query(Company)`, `db.query(Grant).all()`). -/
structure DB where
  companies : List Company
  grants : List Grant

/-- `IntelligentMatcher.find_matches`: look the company up, score every
grant, keep scores > 30, sort stably by descending match score, truncate
to `top_n`. -/
def find_matches (db : DB) (company_id : Nat) (top_n : Nat := 5) :
    Except MatchError (Company × List MatchEntry) :=
  match db.companies.find? (fun c => c.id == company_id) with
  | none => .error (.notFound company_id)
  | some company =>
      let matchList := matchCandidates company db.grants
      let matches_sorted := (matchList.mergeSort matchLE).take top_n
      .ok (company, matches_sorted)

/-- Outcome of the `/match/{company_id}` endpoint, reduced to what the
claims need: a successful match response or an HTTP error status. -/
inductive ApiResult where
  | ok (company : Company) (matchList : List MatchEntry)
  | httpError (status : Nat)
  deriving Repr, DecidableEq

/-- `match_company_with_grants` (`app/api/endpoints.py`): `find_matches`
inside `try`; a `ValueError` (company not found) becomes an
`HTTPException(404)`. -/
def match_company_with_grants (db : DB) (company_id : Nat) (top_n : Nat) :
    ApiResult :=
  match find_matches db company_id top_n with
  | .error _ => .httpError 404
  | .ok (company, ms) => .ok company ms

/-- Concrete company used to exercise the theorems: the Kenyan agriculture
startup of the spec's worked scenario. -/
def exCompany : Company :=
  { id := 1, company_name := some "Imara Test Co", sector := some "agriculture",
    nationality := some "Kenya", business_stage := some "startup",
    funding_need_usd := some 50000 }

/-- Concrete grant used to exercise the theorems: the Africa-wide
agriculture grant of the spec's worked scenario. -/
def exGrant : Grant :=
  { id := 7, program_name := some "AgriFund", institution_name := some "DevBank",
    country := some "", geographic_scope := some "Africa-wide",
    target_sectors := some "agriculture, agritech",
    estimated_value_amount := some 100000,
    website_url := none, data_source_url := none, repayment_required := none }

/-- A grant with a global geographic scope and catch-all sectors. -/
def exGlobalGrant : Grant :=
  { id := 8, program_name := some "WorldFund", institution_name := none,
    country := some "USA", geographic_scope := some "Global",
    target_sectors := some "general support for all sectors",
    estimated_value_amount := some 100000,
    website_url := none, data_source_url := none, repayment_required := some false }

/-- A company with every nullable field absent. -/
def exEmptyCompany : Company :=
  { id := 2, company_name := none, sector := none, nationality := none,
    business_stage := none, funding_need_usd := none }

/-- Concrete database holding just the scenario company and grant. -/
def exDB : DB := { companies := [exCompany], grants := [exGrant] }

/-- The match entry `find_matches` builds for the scenario pair. -/
def exEntry : MatchEntry :=
  buildEntry exGrant 95 { geographic := 35, sector := 30, amount_fit := 20, stage := 10 }

end Imara

namespace Imara

/-! ### Basic facts about the embedded Python string primitives -/

theorem subList_nil_left (l : List Char) : subList [] l = true := by
  cases l <;> simp [subList, List.isPrefixOf]

theorem pyIn_empty_left (s : List Char) : pyIn [] s = true :=
  subList_nil_left s

/-! ### Value sets of the four sub-scores -/

theorem scoreGeography_cases (c : Company) (g : Grant) :
    scoreGeography c g = 0 ∨ scoreGeography c g = 35 ∨ scoreGeography c g = 40 := by
  simp only [scoreGeography]
  split_ifs <;> norm_num

theorem scoreSector_cases (c : Company) (g : Grant) :
    scoreSector c g = 10 ∨ scoreSector c g = 20 ∨ scoreSector c g = 25 ∨
      scoreSector c g = 30 := by
  simp only [scoreSector]
  split_ifs <;> norm_num

theorem scoreFundingAmount_cases (c : Company) (g : Grant) :
    scoreFundingAmount c g = 8 ∨ scoreFundingAmount c g = 15 ∨
      scoreFundingAmount c g = 20 := by
  simp only [scoreFundingAmount]
  split_ifs <;> norm_num

theorem scoreBusinessStage_cases (c : Company) (g : Grant) :
    scoreBusinessStage c g = 7 ∨ scoreBusinessStage c g = 8 ∨
      scoreBusinessStage c g = 9 ∨ scoreBusinessStage c g = 10 := by
  simp only [scoreBusinessStage]
  split_ifs <;> norm_num

/-! ### Sub-scores are integers, and `round(·, 1)` fixes integers -/

theorem scoreGeography_int (c : Company) (g : Grant) :
    ∃ n : ℤ, scoreGeography c g = (n : ℚ) := by
  rcases scoreGeography_cases c g with h | h | h
  exacts [⟨0, by rw [h]; norm_num⟩, ⟨35, by rw [h]; norm_num⟩,
    ⟨40, by rw [h]; norm_num⟩]

theorem scoreSector_int (c : Company) (g : Grant) :
    ∃ n : ℤ, scoreSector c g = (n : ℚ) := by
  rcases scoreSector_cases c g with h | h | h | h
  exacts [⟨10, by rw [h]; norm_num⟩, ⟨20, by rw [h]; norm_num⟩,
    ⟨25, by rw [h]; norm_num⟩, ⟨30, by rw [h]; norm_num⟩]

theorem scoreFundingAmount_int (c : Company) (g : Grant) :
    ∃ n : ℤ, scoreFundingAmount c g = (n : ℚ) := by
  rcases scoreFundingAmount_cases c g with h | h | h
  exacts [⟨8, by rw [h]; norm_num⟩, ⟨15, by rw [h]; norm_num⟩,
    ⟨20, by rw [h]; norm_num⟩]

theorem scoreBusinessStage_int (c : Company) (g : Grant) :
    ∃ n : ℤ, scoreBusinessStage c g = (n : ℚ) := by
  rcases scoreBusinessStage_cases c g with h | h | h | h
  exacts [⟨7, by rw [h]; norm_num⟩, ⟨8, by rw [h]; norm_num⟩,
    ⟨9, by rw [h]; norm_num⟩, ⟨10, by rw [h]; norm_num⟩]

theorem calculateMatchScore_int (c : Company) (g : Grant) :
    ∃ n : ℤ, (calculateMatchScore c g).1 = (n : ℚ) := by
  obtain ⟨n1, h1⟩ := scoreGeography_int c g
  obtain ⟨n2, h2⟩ := scoreSector_int c g
  obtain ⟨n3, h3⟩ := scoreFundingAmount_int c g
  obtain ⟨n4, h4⟩ := scoreBusinessStage_int c g
  refine ⟨min 100 (n1 + n2 + n3 + n4), ?_⟩
  simp only [calculateMatchScore, h1, h2, h3, h4]
  push_cast
  rfl

theorem pyRound1_intCast (n : ℤ) : pyRound1 ((n : ℤ) : ℚ) = ((n : ℤ) : ℚ) := by
  have h1 : (10 : ℚ) * ((n : ℤ) : ℚ) = ((10 * n : ℤ) : ℚ) := by push_cast; ring
  rw [pyRound1, h1]
  have h2 : ∀ m : ℤ, roundHalfToEven ((m : ℤ) : ℚ) = m := by
    intro m
    rw [roundHalfToEven]
    simp only [Int.floor_intCast, sub_self]
    norm_num
  rw [h2]
  push_cast
  ring

end Imara

namespace Imara

/-! ### Per-dimension caps -/

theorem scoreGeography_le (c : Company) (g : Grant) : scoreGeography c g ≤ 40 := by
  rcases scoreGeography_cases c g with h | h | h <;> rw [h] <;> norm_num

theorem scoreSector_le (c : Company) (g : Grant) : scoreSector c g ≤ 30 := by
  rcases scoreSector_cases c g with h | h | h | h <;> rw [h] <;> norm_num

theorem scoreFundingAmount_le (c : Company) (g : Grant) : scoreFundingAmount c g ≤ 20 := by
  rcases scoreFundingAmount_cases c g with h | h | h <;> rw [h] <;> norm_num

theorem scoreBusinessStage_le (c : Company) (g : Grant) : scoreBusinessStage c g ≤ 10 := by
  rcases scoreBusinessStage_cases c g with h | h | h | h <;> rw [h] <;> norm_num

theorem calculateMatchScore_amount_fit (c : Company) (g : Grant) :
    (calculateMatchScore c g).2.amount_fit = scoreFundingAmount c g := by
  simp [calculateMatchScore]

/-- C2: for every Company/Grant pair the returned score equals
`min 100 (geographic + sector + amount_fit + stage)` over its own breakdown,
and since the four caps 40/30/20/10 sum to exactly 100 the clamp never
triggers: the score equals the plain sum of the four breakdown values. -/
theorem C2_score_is_sum_of_breakdown (c : Company) (g : Grant) :
    (calculateMatchScore c g).1 =
      min 100 ((calculateMatchScore c g).2.geographic + (calculateMatchScore c g).2.sector +
        (calculateMatchScore c g).2.amount_fit + (calculateMatchScore c g).2.stage) ∧
    (calculateMatchScore c g).1 =
      (calculateMatchScore c g).2.geographic + (calculateMatchScore c g).2.sector +
        (calculateMatchScore c g).2.amount_fit + (calculateMatchScore c g).2.stage := by
  have hsum : scoreGeography c g + scoreSector c g + scoreFundingAmount c g +
      scoreBusinessStage c g ≤ 100 := by
    have h1 := scoreGeography_le c g
    have h2 := scoreSector_le c g
    have h3 := scoreFundingAmount_le c g
    have h4 := scoreBusinessStage_le c g
    linarith
  constructor
  · simp [calculateMatchScore]
  · simp only [calculateMatchScore]
    exact min_eq_right hsum

/-- C7: `scoreMatch` is a total function: every Company/Grant pair, with
null or empty text fields and zero or absent amounts included, yields a
`(score, breakdown)` result; the amount sub-score always lands in its
defined value set, and the ratio branch (the division `need / available`)
is reached only when both amounts are non-zero — when either is zero or
absent the 15-point fallback is returned instead. -/
theorem C7_scoreMatch_total (c : Company) (g : Grant) :
    (∃ s b, calculateMatchScore c g = (s, b)) ∧
    ((calculateMatchScore c g).2.amount_fit = 8 ∨
     (calculateMatchScore c g).2.amount_fit = 15 ∨
     (calculateMatchScore c g).2.amount_fit = 20) ∧
    (c.funding_need_usd.getD 0 = 0 ∨ g.estimated_value_amount.getD 0 = 0 →
      (calculateMatchScore c g).2.amount_fit = 15) := by
  refine ⟨⟨_, _, rfl⟩, ?_, ?_⟩
  · rw [calculateMatchScore_amount_fit]
    exact scoreFundingAmount_cases c g
  · intro h0
    rw [calculateMatchScore_amount_fit]
    rcases h0 with h0 | h0 <;> simp [scoreFundingAmount, h0]

/-- Witness for C7: a company with absent funding need against the
scenario grant gets the 15-point unknown-amount fallback. -/
theorem C7_scoreMatch_total_witness :
    (calculateMatchScore exEmptyCompany exGrant).2.amount_fit = 15 :=
  (C7_scoreMatch_total exEmptyCompany exGrant).2.2 (Or.inl rfl)

end Imara

namespace Imara

/-- C3: the geography sub-score follows the ordered, first-match-wins,
case-insensitive, whitespace-trimmed rules: 40 if the grant scope contains
"global" (hence 40 for every company nationality); else 40 if the company
nationality is a substring of the grant country or of the grant scope;
else 35 if the nationality is in the fixed African-country list and the
scope contains "africa" or "african"; else 0. -/
theorem C3_geography_rules (c : Company) (g : Grant) :
    (pyIn "global".toList (pyNorm g.geographic_scope) = true →
      scoreGeography c g = 40) ∧
    (pyIn "global".toList (pyNorm g.geographic_scope) = false →
      (pyIn (pyNorm c.nationality) (pyNorm g.country) ||
        pyIn (pyNorm c.nationality) (pyNorm g.geographic_scope)) = true →
      scoreGeography c g = 40) ∧
    (pyIn "global".toList (pyNorm g.geographic_scope) = false →
      (pyIn (pyNorm c.nationality) (pyNorm g.country) ||
        pyIn (pyNorm c.nationality) (pyNorm g.geographic_scope)) = false →
      scoreGeography.africa_countries.contains (pyNorm c.nationality) = true →
      (pyIn "africa".toList (pyNorm g.geographic_scope) ||
        pyIn "african".toList (pyNorm g.geographic_scope)) = true →
      scoreGeography c g = 35) ∧
    (pyIn "global".toList (pyNorm g.geographic_scope) = false →
      (pyIn (pyNorm c.nationality) (pyNorm g.country) ||
        pyIn (pyNorm c.nationality) (pyNorm g.geographic_scope)) = false →
      (scoreGeography.africa_countries.contains (pyNorm c.nationality) &&
        (pyIn "africa".toList (pyNorm g.geographic_scope) ||
          pyIn "african".toList (pyNorm g.geographic_scope))) = false →
      scoreGeography c g = 0) := by
  refine ⟨?_, ?_, ?_, ?_⟩ <;> intros <;> simp only [scoreGeography] <;>
    simp_all

/-- Witness for C3: the African-regional branch fires for the Kenyan
scenario company against the Africa-wide grant (score 35), and the global
branch fires for the global grant regardless of nationality (score 40). -/
theorem C3_geography_rules_witness :
    scoreGeography exCompany exGrant = 35 ∧
    scoreGeography exCompany exGlobalGrant = 40 :=
  ⟨(C3_geography_rules exCompany exGrant).2.2.1 (by decide) (by decide)
      (by decide) (by decide),
    (C3_geography_rules exCompany exGlobalGrant).1 (by decide)⟩

/-- C4: the sector sub-score follows the ordered rules on lowercased,
trimmed text: 25 if the target-sectors text contains a catch-all token
"all", "general" or "any" (checked first); else 30 if the company sector
is a substring of the target-sectors text; else 20 if some
whitespace-delimited word of the company sector longer than 3 characters
is a substring of the target-sectors text; else 10 — and the sector
sub-score is never 0. -/
theorem C4_sector_rules (c : Company) (g : Grant) :
    ((["all", "general", "any"].map String.toList).any
        (fun keyword => pyIn keyword (pyNorm g.target_sectors)) = true →
      scoreSector c g = 25) ∧
    ((["all", "general", "any"].map String.toList).any
        (fun keyword => pyIn keyword (pyNorm g.target_sectors)) = false →
      pyIn (pyNorm c.sector) (pyNorm g.target_sectors) = true →
      scoreSector c g = 30) ∧
    ((["all", "general", "any"].map String.toList).any
        (fun keyword => pyIn keyword (pyNorm g.target_sectors)) = false →
      pyIn (pyNorm c.sector) (pyNorm g.target_sectors) = false →
      ((pySplit (pyNorm c.sector)).any fun word =>
        decide (word.length > 3) && pyIn word (pyNorm g.target_sectors)) = true →
      scoreSector c g = 20) ∧
    ((["all", "general", "any"].map String.toList).any
        (fun keyword => pyIn keyword (pyNorm g.target_sectors)) = false →
      pyIn (pyNorm c.sector) (pyNorm g.target_sectors) = false →
      ((pySplit (pyNorm c.sector)).any fun word =>
        decide (word.length > 3) && pyIn word (pyNorm g.target_sectors)) = false →
      scoreSector c g = 10) ∧
    scoreSector c g ≠ 0 := by
  refine ⟨?_, ?_, ?_, ?_,
    by rcases scoreSector_cases c g with h | h | h | h <;> rw [h] <;> norm_num⟩
  all_goals intros
  all_goals simp only [scoreSector]
  all_goals simp_all

/-- Witness for C4: the spec's catch-all scenario — a technology company
against target sectors "general support for all sectors" scores 25, not
30. -/
theorem C4_sector_rules_witness :
    scoreSector
      { exCompany with sector := some "technology" } exGlobalGrant = 25 :=
  (C4_sector_rules { exCompany with sector := some "technology" }
    exGlobalGrant).1 (by decide)

end Imara

namespace Imara

/-- C5: the amount-fit sub-score is 15 when either the company funding
need or the grant available amount is zero or absent; otherwise, with
`ratio = need / available`, it is 20 when 0.1 ≤ ratio ≤ 2.0, else 15 when
0.05 ≤ ratio ≤ 5.0, else 8. -/
theorem C5_amount_rules (c : Company) (g : Grant) :
    (c.funding_need_usd.getD 0 = 0 ∨ g.estimated_value_amount.getD 0 = 0 →
      scoreFundingAmount c g = 15) ∧
    (c.funding_need_usd.getD 0 ≠ 0 → g.estimated_value_amount.getD 0 ≠ 0 →
      ((0.1 ≤ c.funding_need_usd.getD 0 / g.estimated_value_amount.getD 0 ∧
          c.funding_need_usd.getD 0 / g.estimated_value_amount.getD 0 ≤ 2.0 →
        scoreFundingAmount c g = 20) ∧
       (¬(0.1 ≤ c.funding_need_usd.getD 0 / g.estimated_value_amount.getD 0 ∧
          c.funding_need_usd.getD 0 / g.estimated_value_amount.getD 0 ≤ 2.0) →
        0.05 ≤ c.funding_need_usd.getD 0 / g.estimated_value_amount.getD 0 ∧
          c.funding_need_usd.getD 0 / g.estimated_value_amount.getD 0 ≤ 5.0 →
        scoreFundingAmount c g = 15) ∧
       (¬(0.1 ≤ c.funding_need_usd.getD 0 / g.estimated_value_amount.getD 0 ∧
          c.funding_need_usd.getD 0 / g.estimated_value_amount.getD 0 ≤ 2.0) →
        ¬(0.05 ≤ c.funding_need_usd.getD 0 / g.estimated_value_amount.getD 0 ∧
          c.funding_need_usd.getD 0 / g.estimated_value_amount.getD 0 ≤ 5.0) →
        scoreFundingAmount c g = 8))) := by
  constructor
  · intro h0
    rcases h0 with h0 | h0 <;> simp [scoreFundingAmount, h0]
  · intro hn ha
    have hr : scoreFundingAmount c g =
        if 0.1 ≤ c.funding_need_usd.getD 0 / g.estimated_value_amount.getD 0 ∧
            c.funding_need_usd.getD 0 / g.estimated_value_amount.getD 0 ≤ 2.0 then 20
        else if 0.05 ≤ c.funding_need_usd.getD 0 / g.estimated_value_amount.getD 0 ∧
            c.funding_need_usd.getD 0 / g.estimated_value_amount.getD 0 ≤ 5.0 then 15
        else 8 := by
      simp only [scoreFundingAmount]
      rw [if_neg]
      rintro (h | h)
      · exact ha h
      · exact hn h
    exact ⟨fun h1 => by rw [hr, if_pos h1],
      fun h1 h2 => by rw [hr, if_neg h1, if_pos h2],
      fun h1 h2 => by rw [hr, if_neg h1, if_neg h2]⟩

/-- Witness for C5: the scenario pair has ratio 1/2 and scores 20, and a
zero funding need yields the 15-point fallback. -/
theorem C5_amount_rules_witness :
    scoreFundingAmount exCompany exGrant = 20 ∧
    scoreFundingAmount { exCompany with funding_need_usd := some 0 } exGrant = 15 :=
  ⟨((C5_amount_rules exCompany exGrant).2 (by norm_num [exCompany])
      (by norm_num [exGrant])).1 (by norm_num [exCompany, exGrant]),
   (C5_amount_rules { exCompany with funding_need_usd := some 0 } exGrant).1
      (Or.inl rfl)⟩

/-- C6: the stage sub-score on the lowercased, trimmed business stage is
10 for "startup" or "early growth", 8 for "idea", 9 for "growth",
"scale-up" or "expansion", and 7 for anything else, the empty string
included. -/
theorem C6_stage_rules (c : Company) (g : Grant) :
    (pyNorm c.business_stage = "startup".toList ∨
      pyNorm c.business_stage = "early growth".toList →
      scoreBusinessStage c g = 10) ∧
    (pyNorm c.business_stage = "idea".toList → scoreBusinessStage c g = 8) ∧
    (pyNorm c.business_stage = "growth".toList ∨
      pyNorm c.business_stage = "scale-up".toList ∨
      pyNorm c.business_stage = "expansion".toList →
      scoreBusinessStage c g = 9) ∧
    (pyNorm c.business_stage ∉
        (["startup", "early growth", "idea", "growth", "scale-up",
          "expansion"].map String.toList) →
      scoreBusinessStage c g = 7) := by
  refine ⟨?_, ?_, ?_, ?_⟩ <;> intro h
  · rcases h with h | h <;> simp only [scoreBusinessStage] <;> simp_all
  · simp only [scoreBusinessStage]
    simp_all
  · rcases h with h | h | h <;> simp only [scoreBusinessStage] <;> simp_all
  · simp only [scoreBusinessStage]
    simp_all

/-- Witness for C6: the scenario company is a startup (10 points) and the
company with an absent stage — normalising to the empty string — gets the
7-point fallback. -/
theorem C6_stage_rules_witness :
    scoreBusinessStage exCompany exGrant = 10 ∧
    scoreBusinessStage exEmptyCompany exGrant = 7 :=
  ⟨(C6_stage_rules exCompany exGrant).1 (Or.inl (by decide)),
   (C6_stage_rules exEmptyCompany exGrant).2.2.2 (by decide)⟩

/-- C9: a company whose nationality is null or strips to the empty string
gets the full 40-point geography score against every grant: the empty
string is a substring of every grant country, so the grant never falls
through to the 35-point African-regional branch or the 0 fallback. -/
theorem C9_empty_nationality_full_geo (c : Company) (g : Grant)
    (h : pyNorm c.nationality = []) : scoreGeography c g = 40 := by
  simp [scoreGeography, h, pyIn_empty_left]

/-- Witness for C9: the all-null company scores geography 40 against the
(non-global) scenario grant. -/
theorem C9_empty_nationality_full_geo_witness :
    scoreGeography exEmptyCompany exGrant = 40 :=
  C9_empty_nationality_full_geo exEmptyCompany exGrant rfl

/-- C10: a company whose sector is null or strips to the empty string
scores 25 when the grant's target-sectors text contains a catch-all token,
and 30 otherwise: the empty string is a substring of every target-sectors
text, so the 20-point and 10-point branches are unreachable. -/
theorem C10_empty_sector_score (c : Company) (g : Grant)
    (h : pyNorm c.sector = []) :
    ((["all", "general", "any"].map String.toList).any
        (fun keyword => pyIn keyword (pyNorm g.target_sectors)) = true →
      scoreSector c g = 25) ∧
    ((["all", "general", "any"].map String.toList).any
        (fun keyword => pyIn keyword (pyNorm g.target_sectors)) = false →
      scoreSector c g = 30) := by
  constructor <;> intro h1 <;> simp only [scoreSector, h] <;>
    simp_all [pyIn_empty_left]

/-- Witness for C10: the all-null company scores 25 against the catch-all
grant and 30 against the scenario grant. -/
theorem C10_empty_sector_score_witness :
    scoreSector exEmptyCompany exGlobalGrant = 25 ∧
    scoreSector exEmptyCompany exGrant = 30 :=
  ⟨(C10_empty_sector_score exEmptyCompany exGlobalGrant rfl).1 (by decide),
   (C10_empty_sector_score exEmptyCompany exGrant rfl).2 (by decide)⟩

/-- C8: when no company matches the id, `find_matches` fails with the
not-found error no matter what the grant table holds — the lookup happens
before any grant data is read — and the endpoint surfaces it as a 404. -/
theorem C8_unknown_company_404 (db : DB) (cid topN : Nat)
    (h : db.companies.find? (fun c => c.id == cid) = none) :
    (∀ grants : List Grant,
      find_matches { companies := db.companies, grants := grants } cid topN =
        .error (.notFound cid)) ∧
    match_company_with_grants db cid topN = .httpError 404 := by
  constructor
  · intro grants
    simp [find_matches, h]
  · simp [match_company_with_grants, find_matches, h]

/-- Witness for C8: id 2 resolves to no company in the scenario database,
so `find_matches` errors and the endpoint answers 404. -/
theorem C8_unknown_company_404_witness :
    find_matches { companies := [exCompany], grants := [exGrant] } 2 5 =
      .error (.notFound 2) ∧
    match_company_with_grants exDB 2 5 = .httpError 404 :=
  have h : exDB.companies.find? (fun c => c.id == 2) = none := by decide
  ⟨(C8_unknown_company_404 exDB 2 5 h).1 [exGrant],
   (C8_unknown_company_404 exDB 2 5 h).2⟩

end Imara

namespace Imara

/-! ### The sort comparison is transitive and total, and every candidate
entry scores strictly above 30 -/

theorem matchLE_trans (a b c : MatchEntry) :
    matchLE a b = true → matchLE b c = true → matchLE a c = true := by
  simp only [matchLE, decide_eq_true_eq]
  intro h1 h2
  exact le_trans h2 h1

theorem matchLE_total (a b : MatchEntry) : (matchLE a b || matchLE b a) = true := by
  simp only [matchLE, Bool.or_eq_true, decide_eq_true_eq]
  exact le_total _ _

theorem mem_matchCandidates {company : Company} {grants : List Grant}
    {m : MatchEntry} (hm : m ∈ matchCandidates company grants) :
    30 < m.match_score := by
  simp only [matchCandidates, List.mem_filterMap] at hm
  obtain ⟨g, _, he⟩ := hm
  by_cases hs : (calculateMatchScore company g).1 > 30
  · rw [if_pos hs] at he
    injection he with he
    subst he
    obtain ⟨n, hn⟩ := calculateMatchScore_int company g
    simp only [buildEntry]
    rw [hn, pyRound1_intCast, ← hn]
    exact hs
  · rw [if_neg hs] at he
    cases he

/-- Stability of the stable descending sort: filtering the sorted list to
one exact score value returns those entries in their original order. -/
theorem mergeSort_filter_score (L : List MatchEntry) (s : ℚ) :
    (L.mergeSort matchLE).filter (fun m => decide (m.match_score = s)) =
      L.filter (fun m => decide (m.match_score = s)) := by
  set p : MatchEntry → Bool := fun m => decide (m.match_score = s) with hp
  have hpw : (L.filter p).Pairwise (fun a b => matchLE a b = true) := by
    apply List.pairwise_of_forall_mem_list
    intro a ha b hb
    have ha' := List.of_mem_filter ha
    have hb' := List.of_mem_filter hb
    rw [hp] at ha' hb'
    simp only [decide_eq_true_eq] at ha' hb'
    simp [matchLE, ha', hb']
  have hsub : List.Sublist (L.filter p) (L.mergeSort matchLE) :=
    List.sublist_mergeSort matchLE_trans matchLE_total hpw (List.filter_sublist L)
  have hff : (L.filter p).filter p = L.filter p := by
    rw [List.filter_filter]
    simp
  have hsub2 : List.Sublist (L.filter p) ((L.mergeSort matchLE).filter p) := by
    have h2 := hsub.filter p
    rwa [hff] at h2
  have hperm : List.Perm ((L.mergeSort matchLE).filter p) (L.filter p) :=
    (List.mergeSort_perm L matchLE).filter p
  exact (hsub2.eq_of_length hperm.length_eq.symm).symm

/-- C1: when the company id resolves, `find_matches` returns only matches
with score strictly above 30, at most `topN` of them, sorted
non-increasingly by score; the returned list is the `topN`-prefix of a
full ranking that permutes the candidate list and, on every tie class
(one exact score value), preserves the original grant-collection order —
the stable descending sort with no secondary key. -/
theorem C1_find_matches_ranked (db : DB) (cid topN : Nat) (company : Company)
    (ms : List MatchEntry)
    (h : find_matches db cid topN = .ok (company, ms)) :
    (∀ m ∈ ms, 30 < m.match_score) ∧
    ms.length ≤ topN ∧
    ms.Pairwise (fun a b => b.match_score ≤ a.match_score) ∧
    ∃ full : List MatchEntry,
      ms = full.take topN ∧
      full.Perm (matchCandidates company db.grants) ∧
      full.Pairwise (fun a b => b.match_score ≤ a.match_score) ∧
      ∀ s : ℚ, full.filter (fun m => decide (m.match_score = s)) =
        (matchCandidates company db.grants).filter
          (fun m => decide (m.match_score = s)) := by
  simp only [find_matches] at h
  cases hfind : db.companies.find? (fun c => c.id == cid) with
  | none =>
    rw [hfind] at h
    exact absurd h (by simp)
  | some comp =>
    rw [hfind] at h
    obtain ⟨hcomp, hms⟩ : comp = company ∧
        ((matchCandidates comp db.grants).mergeSort matchLE).take topN = ms := by
      simpa using h
    subst hcomp
    subst hms
    have hsorted :
        ((matchCandidates comp db.grants).mergeSort matchLE).Pairwise
          (fun a b => b.match_score ≤ a.match_score) := by
      have h1 := List.sorted_mergeSort matchLE_trans matchLE_total
        (matchCandidates comp db.grants)
      exact h1.imp (by simp only [matchLE, decide_eq_true_eq]; exact fun h => h)
    refine ⟨?_, ?_, ?_,
      (matchCandidates comp db.grants).mergeSort matchLE, rfl,
      List.mergeSort_perm _ matchLE, hsorted, fun s => mergeSort_filter_score _ s⟩
    · intro m hm
      exact mem_matchCandidates
        (List.mem_mergeSort.mp (List.mem_of_mem_take hm))
    · rw [List.length_take]
      exact Nat.min_le_left _ _
    · exact hsorted.sublist (List.take_sublist _ _)

end Imara

namespace Imara

/-- Witness for C1: on the scenario database the single returned match
carries score 95 > 30 and the list respects the bound of 5. -/
theorem C1_find_matches_ranked_witness :
    30 < exEntry.match_score ∧ [exEntry].length ≤ 5 := by
  have hg : scoreGeography exCompany exGrant = 35 := by decide
  have hs : scoreSector exCompany exGrant = 30 := by decide
  have hb : scoreBusinessStage exCompany exGrant = 10 := by decide
  have ha : scoreFundingAmount exCompany exGrant = 20 := by
    norm_num [scoreFundingAmount, exCompany, exGrant]
  have hscore : calculateMatchScore exCompany exGrant =
      (95, { geographic := 35, sector := 30, amount_fit := 20, stage := 10 }) := by
    simp only [calculateMatchScore, hg, hs, ha, hb]
    norm_num
  have hcand : matchCandidates exCompany [exGrant] = [exEntry] := by
    simp only [matchCandidates, List.filterMap_cons, List.filterMap_nil, hscore]
    norm_num [exEntry]
  have hfind : ([exCompany].find? fun c => c.id == 1) = some exCompany :=
    List.find?_cons_of_pos _ (by decide)
  have h : find_matches exDB 1 5 = .ok (exCompany, [exEntry]) := by
    simp only [find_matches, exDB, hfind, hcand, List.mergeSort_singleton]
    rfl
  exact ⟨(C1_find_matches_ranked exDB 1 5 exCompany [exEntry] h).1 exEntry
      (by simp),
    (C1_find_matches_ranked exDB 1 5 exCompany [exEntry] h).2.1⟩

end Imara
